import Mathlib

/-!
Verification development for the TSA Item Checker service (`src/main.py`).

The service has three HTTP handlers:
* `check_item` (POST /check-item): calls an LLM inference client, decodes the
  returned text as JSON with `json.loads`, attempts to insert a record into the
  Supabase table `tsa_checks` (absorbing any exception raised inside that inner
  try block), and returns the decoded value; JSON decode failures map to a fixed
  500 detail, all other exceptions to a generic 500 detail.
* `get_history` (GET /history): selects all rows of `tsa_checks` ordered by
  `created_at` descending, or maps a fetch exception to a 500 detail.
* `read_root` (GET /): returns a fixed welcome payload.

The embedding models Python values decoded by `json.loads` with an inductive
`Json` type, and models `json.loads` itself with an executable recursive-descent
decoder `json_loads` faithful to Python's strict JSON grammar (including the
non-standard `NaN` / `Infinity` literals Python accepts, duplicate-key handling
of Python dicts, and rejection of control characters inside strings). Machine
behaviour of the two external collaborators (inference call, Supabase insert) is
passed in as an explicit environment of outcomes.
-/

/-- A decoded Python/JSON value, as produced by `json.loads`. Numbers keep their
raw lexeme since no code in the repository inspects numeric values. -/
inductive Json where
  | null
  | bool (b : Bool)
  | num (raw : String)
  | str (s : String)
  | arr (elems : List Json)
  | obj (fields : List (String × Json))

/-- The opening brace character, written via its code point. -/
def lbraceChar : Char := Char.ofNat 123

/-- The closing brace character, written via its code point. -/
def rbraceChar : Char := Char.ofNat 125

/-- JSON insignificant whitespace, as accepted by Python's json module. -/
def skipWs : List Char → List Char
  | c :: cs =>
    if c = ' ' ∨ c = '\t' ∨ c = '\n' ∨ c = '\r' then skipWs cs else c :: cs
  | [] => []

/-- Value of one hexadecimal digit. -/
def hexVal (c : Char) : Option Nat :=
  if '0' ≤ c ∧ c ≤ '9' then some (c.toNat - '0'.toNat)
  else if 'a' ≤ c ∧ c ≤ 'f' then some (c.toNat - 'a'.toNat + 10)
  else if 'A' ≤ c ∧ c ≤ 'F' then some (c.toNat - 'A'.toNat + 10)
  else none

/-- Body of a JSON string literal after the opening quote: handles the escape
sequences of the JSON grammar and rejects raw control characters, as Python's
strict decoder does. Returns the decoded string and the input after the
closing quote. -/
def parseStringBody (acc : List Char) : List Char → Option (String × List Char)
  | [] => none
  | c :: cs =>
    if c = '"' then some (String.mk acc.reverse, cs)
    else if c = '\\' then
      match cs with
      | [] => none
      | e :: cs2 =>
        if e = '"' then parseStringBody ('"' :: acc) cs2
        else if e = '\\' then parseStringBody ('\\' :: acc) cs2
        else if e = '/' then parseStringBody ('/' :: acc) cs2
        else if e = 'b' then parseStringBody (Char.ofNat 8 :: acc) cs2
        else if e = 'f' then parseStringBody (Char.ofNat 12 :: acc) cs2
        else if e = 'n' then parseStringBody ('\n' :: acc) cs2
        else if e = 'r' then parseStringBody ('\r' :: acc) cs2
        else if e = 't' then parseStringBody ('\t' :: acc) cs2
        else if e = 'u' then
          match cs2 with
          | h1 :: h2 :: h3 :: h4 :: cs3 =>
            match hexVal h1, hexVal h2, hexVal h3, hexVal h4 with
            | some a, some b, some c4, some d =>
              parseStringBody (Char.ofNat (((a * 16 + b) * 16 + c4) * 16 + d) :: acc) cs3
            | _, _, _, _ => none
          | _ => none
        else none
    else if c.toNat < 32 then none
    else parseStringBody (c :: acc) cs

/-- Longest prefix of decimal digits. -/
def takeDigits : List Char → List Char × List Char
  | c :: cs =>
    if c.isDigit then
      let (ds, r) := takeDigits cs
      (c :: ds, r)
    else ([], c :: cs)
  | [] => ([], [])

/-- Checks that the input starts with the given characters and drops them. -/
def expectChars : List Char → List Char → Option (List Char)
  | [], cs => some cs
  | p :: ps, c :: cs => if c = p then expectChars ps cs else none
  | _ :: _, [] => none

/-- Optional fraction part of a JSON number. -/
def parseFrac (cs : List Char) : Option (List Char × List Char) :=
  match cs with
  | d :: rest =>
    if d = '.' then
      let (ds, r) := takeDigits rest
      if ds.isEmpty then none else some (d :: ds, r)
    else some ([], cs)
  | [] => some ([], [])

/-- Optional exponent part of a JSON number. -/
def parseExp (cs : List Char) : Option (List Char × List Char) :=
  match cs with
  | e :: rest =>
    if e = 'e' ∨ e = 'E' then
      let (sign, rest2) :=
        match rest with
        | s :: r2 => if s = '+' ∨ s = '-' then (([s] : List Char), r2) else (([] : List Char), s :: r2)
        | [] => (([] : List Char), ([] : List Char))
      let (ds, r) := takeDigits rest2
      if ds.isEmpty then none else some (e :: (sign ++ ds), r)
    else some ([], cs)
  | [] => some ([], [])

/-- A JSON number lexeme: optional minus, integer part without leading zeros,
optional fraction and exponent. Returns the raw lexeme. -/
def parseNumber (cs : List Char) : Option (String × List Char) :=
  let (neg, cs1) :=
    match cs with
    | c :: rest => if c = '-' then (([c] : List Char), rest) else (([] : List Char), c :: rest)
    | [] => (([] : List Char), ([] : List Char))
  match cs1 with
  | [] => none
  | c :: rest =>
    if c = '0' then
      match parseFrac rest with
      | none => none
      | some (f, cs3) =>
        match parseExp cs3 with
        | none => none
        | some (ex, cs4) => some (String.mk (neg ++ [c] ++ f ++ ex), cs4)
    else if c.isDigit then
      let (ds, cs2) := takeDigits (c :: rest)
      match parseFrac cs2 with
      | none => none
      | some (f, cs3) =>
        match parseExp cs3 with
        | none => none
        | some (ex, cs4) => some (String.mk (neg ++ ds ++ f ++ ex), cs4)
    else none

/-- Python-dict key insertion: a duplicate key keeps its original position and
takes the latest value, as `json.loads` objects do. -/
def upsert : List (String × Json) → String → Json → List (String × Json)
  | [], k, v => [(k, v)]
  | (k0, v0) :: rest, k, v =>
    if k0 = k then (k0, v) :: rest else (k0, v0) :: upsert rest k v

mutual

/-- One JSON value, fuel-bounded recursive descent. -/
def parseValue : Nat → List Char → Option (Json × List Char)
  | 0, _ => none
  | fuel + 1, cs =>
    match skipWs cs with
    | [] => none
    | c :: rest =>
      if c = '"' then
        match parseStringBody [] rest with
        | some (s, r) => some (Json.str s, r)
        | none => none
      else if c = 't' then
        match expectChars ['r', 'u', 'e'] rest with
        | some r => some (Json.bool true, r)
        | none => none
      else if c = 'f' then
        match expectChars ['a', 'l', 's', 'e'] rest with
        | some r => some (Json.bool false, r)
        | none => none
      else if c = 'n' then
        match expectChars ['u', 'l', 'l'] rest with
        | some r => some (Json.null, r)
        | none => none
      else if c = 'N' then
        match expectChars ['a', 'N'] rest with
        | some r => some (Json.num "NaN", r)
        | none => none
      else if c = 'I' then
        match expectChars ['n', 'f', 'i', 'n', 'i', 't', 'y'] rest with
        | some r => some (Json.num "Infinity", r)
        | none => none
      else if c = '-' then
        match expectChars ['I', 'n', 'f', 'i', 'n', 'i', 't', 'y'] rest with
        | some r => some (Json.num "-Infinity", r)
        | none =>
          match parseNumber (c :: rest) with
          | some (raw, r) => some (Json.num raw, r)
          | none => none
      else if c = '[' then
        match skipWs rest with
        | c2 :: r2 => if c2 = ']' then some (Json.arr [], r2) else parseArrItems fuel [] rest
        | [] => none
      else if c = lbraceChar then
        match skipWs rest with
        | c2 :: r2 => if c2 = rbraceChar then some (Json.obj [], r2) else parseObjItems fuel [] rest
        | [] => none
      else
        match parseNumber (c :: rest) with
        | some (raw, r) => some (Json.num raw, r)
        | none => none

/-- Comma-separated array elements up to the closing bracket. -/
def parseArrItems : Nat → List Json → List Char → Option (Json × List Char)
  | 0, _, _ => none
  | fuel + 1, acc, cs =>
    match parseValue fuel cs with
    | none => none
    | some (v, r) =>
      match skipWs r with
      | c :: r2 =>
        if c = ',' then parseArrItems fuel (v :: acc) r2
        else if c = ']' then some (Json.arr (v :: acc).reverse, r2)
        else none
      | [] => none

/-- Comma-separated object members up to the closing brace. -/
def parseObjItems : Nat → List (String × Json) → List Char → Option (Json × List Char)
  | 0, _, _ => none
  | fuel + 1, acc, cs =>
    match skipWs cs with
    | c :: rest =>
      if c = '"' then
        match parseStringBody [] rest with
        | some (k, r) =>
          match skipWs r with
          | c2 :: r2 =>
            if c2 = ':' then
              match parseValue fuel r2 with
              | some (v, r3) =>
                match skipWs r3 with
                | c3 :: r4 =>
                  if c3 = ',' then parseObjItems fuel (upsert acc k v) r4
                  else if c3 = rbraceChar then some (Json.obj (upsert acc k v), r4)
                  else none
                | [] => none
              | none => none
            else none
          | [] => none
        | none => none
      else none
    | [] => none

end

/-- Model of Python's `json.loads`: decodes the whole string as one JSON value
(with surrounding whitespace), returning `none` where `json.loads` raises
`json.JSONDecodeError`. -/
def json_loads (s : String) : Option Json :=
  match parseValue (2 * s.length + 2) s.data with
  | some (j, rest) => if (skipWs rest).isEmpty then some j else none
  | none => none

/-- Python assoc lookup on decoded object fields (`data[k]` on a dict). -/
def lookupKey : List (String × Json) → String → Option Json
  | [], _ => none
  | (k0, v) :: rest, k => if k0 = k then some v else lookupKey rest k

/-- Python subscription `data[k]` on a decoded JSON value: a `KeyError` on a
dict without the key, and a `TypeError` on every non-dict value, as in
CPython. The error payload is the exception text (absorbed by the handler, so
only its existence matters). -/
def getItem (data : Json) (k : String) : Except String Json :=
  match data with
  | Json.obj fields =>
    match lookupKey fields k with
    | some v => Except.ok v
    | none => Except.error ("KeyError: " ++ k)
  | Json.arr _ => Except.error "TypeError: list indices must be integers or slices, not str"
  | Json.str _ => Except.error "TypeError: string indices must be integers"
  | _ => Except.error "TypeError: value is not subscriptable"

/-- The dict literal passed to `supabase.table("tsa_checks").insert(...)` in
`check_item`: evaluating it looks up the three keys in source order and raises
(inside the inner try block) if any lookup fails. -/
def insertPayload (item_name : String) (data : Json) : Except String (List (String × Json)) :=
  match getItem data "carry_on" with
  | Except.error e => Except.error e
  | Except.ok c =>
    match getItem data "checked_bag" with
    | Except.error e => Except.error e
    | Except.ok b =>
      match getItem data "description" with
      | Except.error e => Except.error e
      | Except.ok d =>
        Except.ok [("item_name", Json.str item_name), ("carry_on", c),
                   ("checked_bag", b), ("description", d)]

/-- Outcome of the `check_item` handler body: a returned decoded value, or an
`HTTPException` with a status code and detail string. -/
inductive CheckItemResult where
  | ok (data : Json)
  | httpError (status : Nat) (detail : String)

/-- Behaviour of the two external collaborators during one request:
the inference call either raises (with exception text) or yields the response
content string; the Supabase insert, when reached, either succeeds or raises
(with exception text). -/
structure Env where
  inference : Except String String
  insertOutcome : Except String Unit

/-- A mutation issued against the persistence backend. The source only ever
calls `.insert`; `update`/`delete` constructors exist so the absence of those
operations is expressible. -/
inductive DbOp where
  | insert (table : String) (payload : List (String × Json))
  | update (table : String) (payload : List (String × Json))
  | delete (table : String)

/-- The POST /check-item handler body from `src/main.py`, lines 86-135:
outer try around the inference call, `json.loads`, and an inner try whose
block evaluates the insert dict (the `data[...]` lookups) and issues the
insert; the inner `except Exception` absorbs any exception there. The outer
`except json.JSONDecodeError` maps a decode failure to a fixed 500 detail and
the outer `except Exception` maps anything else to a generic 500 detail.
Returns the handler outcome together with the mutations issued. -/
def check_item (item_name : String) (env : Env) : CheckItemResult × List DbOp :=
  match env.inference with
  | Except.error e =>
    (CheckItemResult.httpError 500 ("An unexpected error occurred: " ++ e), [])
  | Except.ok response_content =>
    match json_loads response_content with
    | none =>
      (CheckItemResult.httpError 500 "Error: The AI model returned a malformed response.", [])
    | some data =>
      match insertPayload item_name data with
      | Except.error _ => (CheckItemResult.ok data, [])
      | Except.ok payload =>
        match env.insertOutcome with
        | Except.ok _ => (CheckItemResult.ok data, [DbOp.insert "tsa_checks" payload])
        | Except.error _ => (CheckItemResult.ok data, [DbOp.insert "tsa_checks" payload])

/-- A decoded value fits the `TSAResponse` model: an object with exactly the
three fields `carry_on : bool`, `checked_bag : bool`, `description : str`. -/
def isTSAShape : Json → Bool
  | Json.obj fields =>
    fields.length == 3 &&
    (match lookupKey fields "carry_on" with
     | some (Json.bool _) => true
     | _ => false) &&
    (match lookupKey fields "checked_bag" with
     | some (Json.bool _) => true
     | _ => false) &&
    (match lookupKey fields "description" with
     | some (Json.str _) => true
     | _ => false)
  | _ => false

/-- A row of the `tsa_checks` table, with its backend-assigned creation
timestamp. -/
structure TsaRecord where
  item_name : String
  carry_on : Bool
  checked_bag : Bool
  description : String
  created_at : Nat

/-- Insert one record into a list kept in descending `created_at` order. -/
def insertDesc (r : TsaRecord) : List TsaRecord → List TsaRecord
  | [] => [r]
  | x :: xs => if x.created_at < r.created_at then r :: x :: xs else x :: insertDesc r xs

/-- Modelled semantics of the Supabase query
`table("tsa_checks").select("*").order("created_at", desc=True)`: all rows of
the table, ordered by `created_at` descending. -/
def orderByCreatedAtDesc (db : List TsaRecord) : List TsaRecord :=
  db.foldr insertDesc []

/-- Outcome of the GET /history handler body. -/
inductive HistoryResult where
  | ok (history : List TsaRecord)
  | httpError (status : Nat) (detail : String)

/-- The GET /history handler from `src/main.py`, lines 141-150: returns all
rows ordered by `created_at` descending, or maps a fetch exception (text `e`)
to a generic 500 detail. `db` is the table contents; `fetchError` is the
exception the Supabase call raises, if any. -/
def get_history (db : List TsaRecord) (fetchError : Option String) : HistoryResult :=
  match fetchError with
  | some e => HistoryResult.httpError 500 ("Failed to fetch history: " ++ e)
  | none => HistoryResult.ok (orderByCreatedAtDesc db)

/-- The GET / handler from `src/main.py`, lines 137-139: a fixed payload. -/
def read_root (_u : Unit) : List (String × Json) :=
  [("message", Json.str "Welcome to the TSA Item Checker API. Go to /docs for more info.")]

/-- Inserting into a descending list is a permutation of consing. -/
theorem insertDesc_perm (r : TsaRecord) (l : List TsaRecord) :
    (insertDesc r l).Perm (r :: l) := by
  induction l with
  | nil => simp [insertDesc]
  | cons x xs ih =>
    by_cases h : x.created_at < r.created_at
    · simp [insertDesc, h]
    · simp only [insertDesc, if_neg h]
      exact (ih.cons x).trans (List.Perm.swap r x xs)

/-- The backend ordering returns a permutation of the table contents. -/
theorem orderByCreatedAtDesc_perm (db : List TsaRecord) :
    (orderByCreatedAtDesc db).Perm db := by
  induction db with
  | nil => simp [orderByCreatedAtDesc]
  | cons x xs ih =>
    simp only [orderByCreatedAtDesc, List.foldr] at *
    exact (insertDesc_perm x _).trans (ih.cons x)

/-- Inserting into a descending-sorted list keeps it descending-sorted. -/
theorem insertDesc_sorted (r : TsaRecord) (l : List TsaRecord)
    (h : l.Pairwise (fun a b => b.created_at ≤ a.created_at)) :
    (insertDesc r l).Pairwise (fun a b => b.created_at ≤ a.created_at) := by
  induction l with
  | nil => simp [insertDesc]
  | cons x xs ih =>
    rcases List.pairwise_cons.mp h with ⟨hx, hxs⟩
    by_cases hlt : x.created_at < r.created_at
    · simp only [insertDesc, if_pos hlt]
      refine List.pairwise_cons.mpr ⟨?_, h⟩
      intro b hb
      rcases List.mem_cons.mp hb with hbx | hbxs
      · subst hbx; exact Nat.le_of_lt hlt
      · exact le_trans (hx b hbxs) (Nat.le_of_lt hlt)
    · simp only [insertDesc, if_neg hlt]
      refine List.pairwise_cons.mpr ⟨?_, ih hxs⟩
      intro b hb
      have hb2 : b ∈ r :: xs := (insertDesc_perm r xs).mem_iff.mp hb
      rcases List.mem_cons.mp hb2 with hbr | hbxs
      · subst hbr; exact Nat.le_of_not_lt hlt
      · exact hx b hbxs

/-- The backend ordering is descending in `created_at`. -/
theorem orderByCreatedAtDesc_sorted (db : List TsaRecord) :
    (orderByCreatedAtDesc db).Pairwise (fun a b => b.created_at ≤ a.created_at) := by
  induction db with
  | nil => simp [orderByCreatedAtDesc]
  | cons x xs ih =>
    simp only [orderByCreatedAtDesc, List.foldr] at *
    exact insertDesc_sorted x _ ih

/-- A successfully evaluated insert dict has exactly the four literal keys. -/
theorem insertPayload_keys (item_name : String) (data : Json) (payload : List (String × Json))
    (h : insertPayload item_name data = Except.ok payload) :
    payload.map Prod.fst = ["item_name", "carry_on", "checked_bag", "description"] := by
  cases h1 : getItem data "carry_on" with
  | error e => simp [insertPayload, h1] at h
  | ok c =>
    cases h2 : getItem data "checked_bag" with
    | error e => simp [insertPayload, h1, h2] at h
    | ok b =>
      cases h3 : getItem data "description" with
      | error e => simp [insertPayload, h1, h2, h3] at h
      | ok d =>
        simp only [insertPayload, h1, h2, h3, Except.ok.injEq] at h
        rw [← h]
        rfl

/-- C1 (amended): for every item name string and every behaviour of the
collaborators, `check_item` either returns the JSON value decoded from the
inference output, or raises the malformed-response failure, or raises the
generic failure interpolating the underlying exception text; no third outcome
is possible. (The returned value need not carry the three typed fields: see
the counterexample, where an incomplete decode is returned as-is.) -/
theorem check_item_outcomes (item_name : String) (env : Env) :
    (∃ data, (check_item item_name env).1 = CheckItemResult.ok data) ∨
    (check_item item_name env).1 =
      CheckItemResult.httpError 500 "Error: The AI model returned a malformed response." ∨
    (∃ e, (check_item item_name env).1 =
      CheckItemResult.httpError 500 ("An unexpected error occurred: " ++ e)) := by
  obtain ⟨inf, ins⟩ := env
  cases inf with
  | error e => exact Or.inr (Or.inr ⟨e, rfl⟩)
  | ok s =>
    cases hj : json_loads s with
    | none =>
      refine Or.inr (Or.inl ?_)
      simp [check_item, hj]
    | some data =>
      refine Or.inl ⟨data, ?_⟩
      cases hp : insertPayload item_name data with
      | error e => simp [check_item, hj, hp]
      | ok payload => cases ins <;> simp [check_item, hj, hp]

/-- C1 witness: the amended statement instantiated at a concrete run. -/
theorem check_item_outcomes_witness :
    (∃ data, (check_item "Laptop" ⟨Except.ok "\x7b\x7d", Except.ok ()⟩).1 = CheckItemResult.ok data) ∨
    (check_item "Laptop" ⟨Except.ok "\x7b\x7d", Except.ok ()⟩).1 =
      CheckItemResult.httpError 500 "Error: The AI model returned a malformed response." ∨
    (∃ e, (check_item "Laptop" ⟨Except.ok "\x7b\x7d", Except.ok ()⟩).1 =
      CheckItemResult.httpError 500 ("An unexpected error occurred: " ++ e)) :=
  check_item_outcomes "Laptop" ⟨Except.ok "\x7b\x7d", Except.ok ()⟩

/-- C1 counterexample: when the inference output decodes to the empty JSON
object, `check_item` returns it without the three typed fields and raises
neither defined failure kind, so the claim as stated is false. -/
theorem check_item_outcomes_counterexample :
    ¬ ((∃ data, (check_item "Laptop" ⟨Except.ok "\x7b\x7d", Except.ok ()⟩).1 = CheckItemResult.ok data ∧
          isTSAShape data = true) ∨
       (check_item "Laptop" ⟨Except.ok "\x7b\x7d", Except.ok ()⟩).1 =
         CheckItemResult.httpError 500 "Error: The AI model returned a malformed response." ∨
       (∃ e, (check_item "Laptop" ⟨Except.ok "\x7b\x7d", Except.ok ()⟩).1 =
         CheckItemResult.httpError 500 ("An unexpected error occurred: " ++ e))) := by
  have hres : (check_item "Laptop" ⟨Except.ok "\x7b\x7d", Except.ok ()⟩).1 =
      CheckItemResult.ok (Json.obj []) := rfl
  intro h
  rcases h with ⟨data, hd, hshape⟩ | hm | ⟨e, he⟩
  · rw [hres] at hd
    injection hd with hd2
    rw [← hd2] at hshape
    exact absurd hshape (by decide)
  · rw [hres] at hm
    cases hm
  · rw [hres] at he
    cases he

/-- C2: when the inference output decodes as JSON but evaluating the insert
dict raises (missing key or non-dict value), the exception is absorbed by the
inner catch-all handler: `check_item` raises neither defined failure kind, it
issues no insert, and it returns the incomplete decoded value. -/
theorem check_item_incomplete_json_absorbed (item_name s e : String)
    (ins : Except String Unit) (data : Json)
    (hdec : json_loads s = some data)
    (hkey : insertPayload item_name data = Except.error e) :
    check_item item_name ⟨Except.ok s, ins⟩ = (CheckItemResult.ok data, []) := by
  simp [check_item, hdec, hkey]

/-- C2 witness: inference output is the empty JSON object, whose first key
lookup raises `KeyError`; the run still returns the decoded empty object. -/
theorem check_item_incomplete_json_absorbed_witness :
    json_loads "\x7b\x7d" = some (Json.obj []) ∧
    insertPayload "Laptop" (Json.obj []) = Except.error "KeyError: carry_on" ∧
    check_item "Laptop" ⟨Except.ok "\x7b\x7d", Except.ok ()⟩ = (CheckItemResult.ok (Json.obj []), []) :=
  ⟨rfl, rfl,
    check_item_incomplete_json_absorbed "Laptop" "\x7b\x7d" "KeyError: carry_on"
      (Except.ok ()) (Json.obj []) rfl rfl⟩

/-- C3: when the Supabase insert raises, `check_item` still returns the
decoded classification, and the whole outcome equals the outcome of the same
run with a successful insert. -/
theorem check_item_persistence_nonfatal (item_name s e : String) (data : Json)
    (payload : List (String × Json))
    (hdec : json_loads s = some data)
    (hpay : insertPayload item_name data = Except.ok payload) :
    check_item item_name ⟨Except.ok s, Except.error e⟩ =
      (CheckItemResult.ok data, [DbOp.insert "tsa_checks" payload]) ∧
    check_item item_name ⟨Except.ok s, Except.error e⟩ =
      check_item item_name ⟨Except.ok s, Except.ok ()⟩ := by
  constructor <;> simp [check_item, hdec, hpay]

/-- C3 witness: a failing insert after a well-formed inference response. -/
theorem check_item_persistence_nonfatal_witness :
    json_loads "\x7b\"carry_on\": true, \"checked_bag\": true, \"description\": \"x\"\x7d" =
      some (Json.obj [("carry_on", Json.bool true), ("checked_bag", Json.bool true),
                      ("description", Json.str "x")]) ∧
    insertPayload "Laptop"
        (Json.obj [("carry_on", Json.bool true), ("checked_bag", Json.bool true),
                   ("description", Json.str "x")]) =
      Except.ok [("item_name", Json.str "Laptop"), ("carry_on", Json.bool true),
                 ("checked_bag", Json.bool true), ("description", Json.str "x")] ∧
    check_item "Laptop"
        ⟨Except.ok "\x7b\"carry_on\": true, \"checked_bag\": true, \"description\": \"x\"\x7d",
         Except.error "connection reset"⟩ =
      (CheckItemResult.ok
         (Json.obj [("carry_on", Json.bool true), ("checked_bag", Json.bool true),
                    ("description", Json.str "x")]),
       [DbOp.insert "tsa_checks"
          [("item_name", Json.str "Laptop"), ("carry_on", Json.bool true),
           ("checked_bag", Json.bool true), ("description", Json.str "x")]]) :=
  ⟨rfl, rfl,
    (check_item_persistence_nonfatal "Laptop"
      "\x7b\"carry_on\": true, \"checked_bag\": true, \"description\": \"x\"\x7d"
      "connection reset"
      (Json.obj [("carry_on", Json.bool true), ("checked_bag", Json.bool true),
                 ("description", Json.str "x")])
      [("item_name", Json.str "Laptop"), ("carry_on", Json.bool true),
       ("checked_bag", Json.bool true), ("description", Json.str "x")]
      rfl rfl).1⟩

/-- C4: when the inference output is not valid JSON, `check_item` raises the
malformed-response failure, a 500 with the fixed detail, and that detail is
distinct from every generic-failure detail. -/
theorem check_item_malformed_response (item_name s : String) (ins : Except String Unit)
    (hdec : json_loads s = none) :
    check_item item_name ⟨Except.ok s, ins⟩ =
      (CheckItemResult.httpError 500 "Error: The AI model returned a malformed response.", []) ∧
    ∀ e, CheckItemResult.httpError 500 ("An unexpected error occurred: " ++ e) ≠
      CheckItemResult.httpError 500 "Error: The AI model returned a malformed response." := by
  constructor
  · simp [check_item, hdec]
  · intro e h
    injection h with h1 h2
    have h3 : ("An unexpected error occurred: " ++ e).data.head? =
        ("Error: The AI model returned a malformed response." : String).data.head? :=
      congrArg (fun t => t.data.head?) h2
    have hA : ("An unexpected error occurred: " ++ e).data.head? = some 'A' := rfl
    have hE : ("Error: The AI model returned a malformed response." : String).data.head? =
        some 'E' := rfl
    rw [hA, hE] at h3
    exact absurd h3 (by decide)

/-- C4 witness: a chatty non-JSON inference output yields the fixed detail. -/
theorem check_item_malformed_response_witness :
    json_loads "sure, here is your answer" = none ∧
    check_item "Laptop" ⟨Except.ok "sure, here is your answer", Except.ok ()⟩ =
      (CheckItemResult.httpError 500 "Error: The AI model returned a malformed response.", []) :=
  ⟨rfl,
    (check_item_malformed_response "Laptop" "sure, here is your answer" (Except.ok ()) rfl).1⟩

/-- C5: when the inference output is the literal three-field JSON object with
`carry_on` and `checked_bag` true and description `x`, `check_item "Laptop"`
returns exactly that decoded structure, whatever the persistence outcome. -/
theorem check_item_literal_laptop (ins : Except String Unit) :
    (check_item "Laptop"
        ⟨Except.ok "\x7b\"carry_on\": true, \"checked_bag\": true, \"description\": \"x\"\x7d",
         ins⟩).1 =
      CheckItemResult.ok
        (Json.obj [("carry_on", Json.bool true), ("checked_bag", Json.bool true),
                   ("description", Json.str "x")]) := by
  cases ins <;> rfl

/-- C5 witness: the statement instantiated at a successful insert. -/
theorem check_item_literal_laptop_witness :
    (check_item "Laptop"
        ⟨Except.ok "\x7b\"carry_on\": true, \"checked_bag\": true, \"description\": \"x\"\x7d",
         Except.ok ()⟩).1 =
      CheckItemResult.ok
        (Json.obj [("carry_on", Json.bool true), ("checked_bag", Json.bool true),
                   ("description", Json.str "x")]) :=
  check_item_literal_laptop (Except.ok ())

/-- C7: a failure of the inference call itself is reported as the generic 500
whose detail interpolates the raw exception text; and every failure outcome of
`check_item` is either the fixed malformed-response detail or such a generic
detail, always with status 500. -/
theorem check_item_generic_failure (item_name e : String) (ins : Except String Unit) :
    check_item item_name ⟨Except.error e, ins⟩ =
      (CheckItemResult.httpError 500 ("An unexpected error occurred: " ++ e), []) ∧
    ∀ env : Env, ∀ st : Nat, ∀ d : String,
      (check_item item_name env).1 = CheckItemResult.httpError st d →
      st = 500 ∧ (d = "Error: The AI model returned a malformed response." ∨
                  ∃ msg, d = "An unexpected error occurred: " ++ msg) := by
  constructor
  · rfl
  · rintro ⟨inf, ins2⟩ st d h
    cases inf with
    | error msg =>
      simp only [check_item] at h
      injection h with h1 h2
      exact ⟨h1.symm, Or.inr ⟨msg, h2.symm⟩⟩
    | ok s =>
      cases hj : json_loads s with
      | none =>
        simp only [check_item, hj] at h
        injection h with h1 h2
        exact ⟨h1.symm, Or.inl h2.symm⟩
      | some data =>
        cases hp : insertPayload item_name data with
        | error e2 => simp [check_item, hj, hp] at h
        | ok payload => cases ins2 <;> simp [check_item, hj, hp] at h

/-- C7 witness: a concrete network-style exception text is interpolated. -/
theorem check_item_generic_failure_witness :
    check_item "Laptop" ⟨Except.error "Connection error.", Except.ok ()⟩ =
      (CheckItemResult.httpError 500 ("An unexpected error occurred: " ++ "Connection error."), []) :=
  (check_item_generic_failure "Laptop" "Connection error." (Except.ok ())).1

/-- C6: `get_history` returns all table rows ordered by `created_at`
descending: on three rows with timestamps t1 < t2 < t3 inserted in that order
the result is the reversed sequence, and in general the result is a
permutation of the whole table (no pagination, no filtering) that is
pairwise descending in `created_at`. -/
theorem get_history_desc_order (r1 r2 r3 : TsaRecord)
    (h12 : r1.created_at < r2.created_at) (h23 : r2.created_at < r3.created_at) :
    get_history [r1, r2, r3] none = HistoryResult.ok [r3, r2, r1] ∧
    ∀ db : List TsaRecord,
      get_history db none = HistoryResult.ok (orderByCreatedAtDesc db) ∧
      (orderByCreatedAtDesc db).Perm db ∧
      (orderByCreatedAtDesc db).Pairwise (fun a b => b.created_at ≤ a.created_at) := by
  constructor
  · have h13 : r1.created_at < r3.created_at := Nat.lt_trans h12 h23
    simp [get_history, orderByCreatedAtDesc, insertDesc,
          Nat.lt_asymm h12, Nat.lt_asymm h23, Nat.lt_asymm h13]
  · intro db
    exact ⟨rfl, orderByCreatedAtDesc_perm db, orderByCreatedAtDesc_sorted db⟩

/-- C6 witness: three concrete rows with timestamps 1 < 2 < 3 come back in
reverse insertion order. -/
theorem get_history_desc_order_witness :
    (1 : Nat) < 2 ∧ (2 : Nat) < 3 ∧
    get_history [⟨"knife", false, true, "blade", 1⟩, ⟨"laptop", true, true, "ok", 2⟩,
                 ⟨"water", false, true, "liquid", 3⟩] none =
      HistoryResult.ok [⟨"water", false, true, "liquid", 3⟩, ⟨"laptop", true, true, "ok", 2⟩,
                        ⟨"knife", false, true, "blade", 1⟩] :=
  ⟨by decide, by decide,
    (get_history_desc_order ⟨"knife", false, true, "blade", 1⟩
      ⟨"laptop", true, true, "ok", 2⟩ ⟨"water", false, true, "liquid", 3⟩
      (by decide) (by decide)).1⟩

/-- C8: every mutation `check_item` issues against the backend is an insert
into `tsa_checks` whose payload has exactly the four fields `item_name`,
`carry_on`, `checked_bag`, `description` — never `created_at`, and never an
update or delete. -/
theorem check_item_insert_payload_fields (item_name : String) (env : Env) (op : DbOp)
    (hop : op ∈ (check_item item_name env).2) :
    ∃ payload, op = DbOp.insert "tsa_checks" payload ∧
      payload.map Prod.fst = ["item_name", "carry_on", "checked_bag", "description"] ∧
      "created_at" ∉ payload.map Prod.fst := by
  obtain ⟨inf, ins⟩ := env
  cases inf with
  | error e => simp [check_item] at hop
  | ok s =>
    cases hj : json_loads s with
    | none => simp [check_item, hj] at hop
    | some data =>
      cases hp : insertPayload item_name data with
      | error e => simp [check_item, hj, hp] at hop
      | ok payload =>
        have hmem : op = DbOp.insert "tsa_checks" payload := by
          cases ins <;> simpa [check_item, hj, hp] using hop
        have hkeys := insertPayload_keys item_name data payload hp
        exact ⟨payload, hmem, hkeys, by rw [hkeys]; decide⟩

/-- C8 witness: the concrete run with a well-formed inference response issues
exactly one insert with the four fields. -/
theorem check_item_insert_payload_fields_witness :
    (DbOp.insert "tsa_checks"
        [("item_name", Json.str "Laptop"), ("carry_on", Json.bool true),
         ("checked_bag", Json.bool true), ("description", Json.str "x")] ∈
      (check_item "Laptop"
        ⟨Except.ok "\x7b\"carry_on\": true, \"checked_bag\": true, \"description\": \"x\"\x7d",
         Except.ok ()⟩).2) ∧
    ∃ payload,
      DbOp.insert "tsa_checks"
          [("item_name", Json.str "Laptop"), ("carry_on", Json.bool true),
           ("checked_bag", Json.bool true), ("description", Json.str "x")] =
        DbOp.insert "tsa_checks" payload ∧
      payload.map Prod.fst = ["item_name", "carry_on", "checked_bag", "description"] ∧
      "created_at" ∉ payload.map Prod.fst :=
  ⟨List.Mem.head _,
    check_item_insert_payload_fields "Laptop"
      ⟨Except.ok "\x7b\"carry_on\": true, \"checked_bag\": true, \"description\": \"x\"\x7d",
       Except.ok ()⟩
      (DbOp.insert "tsa_checks"
        [("item_name", Json.str "Laptop"), ("carry_on", Json.bool true),
         ("checked_bag", Json.bool true), ("description", Json.str "x")])
      (List.Mem.head _)⟩

/-- C9: the GET / handler returns the one fixed welcome payload on every
invocation, with no dependence on any collaborator and no failure mode. -/
theorem read_root_static (u v : Unit) :
    read_root u =
      [("message", Json.str "Welcome to the TSA Item Checker API. Go to /docs for more info.")] ∧
    read_root u = read_root v :=
  ⟨rfl, rfl⟩

/-- C9 witness: the statement at a concrete invocation. -/
theorem read_root_static_witness :
    read_root () =
      [("message", Json.str "Welcome to the TSA Item Checker API. Go to /docs for more info.")] ∧
    read_root () = read_root () :=
  read_root_static () ()

/-- C10: `check_item` is deterministic given its collaborators: two runs with
the same item name, the same inference outcome and the same persistence
outcome produce the identical result and the identical mutation trace. -/
theorem check_item_deterministic (item_name : String) (env1 env2 : Env)
    (h1 : env1.inference = env2.inference)
    (h2 : env1.insertOutcome = env2.insertOutcome) :
    check_item item_name env1 = check_item item_name env2 := by
  obtain ⟨i1, s1⟩ := env1
  obtain ⟨i2, s2⟩ := env2
  cases h1
  cases h2
  rfl

/-- C10 witness: two structurally distinct but extensionally equal runs. -/
theorem check_item_deterministic_witness :
    check_item "Laptop" ⟨Except.ok "\x7b\x7d", Except.ok ()⟩ =
      check_item "Laptop" ⟨Except.ok "\x7b\x7d", Except.ok ()⟩ :=
  check_item_deterministic "Laptop" ⟨Except.ok "\x7b\x7d", Except.ok ()⟩
    ⟨Except.ok "\x7b\x7d", Except.ok ()⟩ rfl rfl
